import Mathlib

/-!
Shallow embedding of the distance / delivery-estimate / delivery-tracking
logic of the medifast-system-design repository.

Conventions used throughout:
* JavaScript numbers are idealised as real numbers (`ℝ`); database column
  values and request-body values that the handlers branch on are modelled
  as rationals (`ℚ`) so that the branch conditions stay decidable, and are
  cast into `ℝ` where the code does arithmetic on them.
* Nullable columns become `Option ℚ`; JavaScript truthiness on a nullable
  number (`if (x)`) is `truthy` below: `null` and `0` are falsy.
* `Math.round` is round-half-toward-positive-infinity, which is exactly
  Mathlib `round` (`round x = ⌊x + 1/2⌋`).
* `Number.prototype.toFixed` picks the larger candidate on ties
  (ECMA-262), so `x.toFixed(2)` re-parsed as a float is also
  `round (x * 100) / 100`.
* The one place where JavaScript float special values matter is the
  division `timeSincePickup / estimatedTimeRemaining` in the tracking GET
  handler: when the denominator is 0 the result is `NaN` or `±Infinity`,
  which `JSON.stringify` serialises as `null`.  That computation therefore
  returns `Option ℤ`, with `none` standing for the non-numeric outcomes.
-/

namespace Medifast

/-- JavaScript truthiness of a nullable number: `null` and `0` are falsy,
every other number is truthy. -/
def truthy : Option ℚ → Bool
  | none => false
  | some x => decide (x ≠ 0)

/-- JavaScript `Math.atan2 y x` (ignoring signed zeros, which never matter
here because both arguments are square roots, hence non-negative). -/
noncomputable def atan2 (y x : ℝ) : ℝ :=
  if 0 < x then Real.arctan (y / x)
  else if x < 0 ∧ 0 ≤ y then Real.arctan (y / x) + Real.pi
  else if x < 0 then Real.arctan (y / x) - Real.pi
  else if x = 0 ∧ 0 < y then Real.pi / 2
  else if x = 0 ∧ y < 0 then -(Real.pi / 2)
  else 0

theorem atan2_nonneg {y x : ℝ} (hy : 0 ≤ y) (hx : 0 ≤ x) : 0 ≤ atan2 y x := by
  unfold atan2
  split_ifs with h1 h2 h3 h4 h5
  · have h := Real.arctan_strictMono.monotone (div_nonneg hy (le_of_lt h1))
    rwa [Real.arctan_zero] at h
  · linarith [h2.1]
  · linarith
  · linarith [Real.pi_pos]
  · linarith [h5.2]
  · exact le_refl 0

/-! ## src/app/api/orders/estimate-delivery/route.ts -/

namespace EstimateDelivery

/-- The local `a` of `calculateDistance` in the delivery-estimate route. -/
noncomputable def havTerm (lat1 lon1 lat2 lon2 : ℝ) : ℝ :=
  Real.sin ((lat2 - lat1) * Real.pi / 180 / 2) *
      Real.sin ((lat2 - lat1) * Real.pi / 180 / 2) +
    Real.cos (lat1 * Real.pi / 180) * Real.cos (lat2 * Real.pi / 180) *
      (Real.sin ((lon2 - lon1) * Real.pi / 180 / 2) *
        Real.sin ((lon2 - lon1) * Real.pi / 180 / 2))

/-- The local `distance = R * c` of `calculateDistance` (before rounding). -/
noncomputable def distanceRaw (lat1 lon1 lat2 lon2 : ℝ) : ℝ :=
  6371 * (2 * atan2 (Real.sqrt (havTerm lat1 lon1 lat2 lon2))
    (Real.sqrt (1 - havTerm lat1 lon1 lat2 lon2)))

/-- `calculateDistance` of the delivery-estimate route: haversine distance
rounded to 2 decimal places (`Math.round(distance * 100) / 100`). -/
noncomputable def calculateDistance (lat1 lon1 lat2 lon2 : ℝ) : ℝ :=
  ((round (distanceRaw lat1 lon1 lat2 lon2 * 100) : ℤ) : ℝ) / 100

/-- `calculateTravelTime` of the delivery-estimate route. -/
noncomputable def calculateTravelTime (distance : ℝ) : ℝ :=
  if distance ≤ 2 then 10
  else if distance ≤ 5 then 20
  else if distance ≤ 10 then 35
  else if distance ≤ 20 then 60
  else 90

/-- `calculateDeliveryFee` of the delivery-estimate route. -/
noncomputable def calculateDeliveryFee (distance : ℝ) : ℝ :=
  if distance ≤ 2 then 2.00
  else if distance ≤ 5 then 3.50
  else if distance ≤ 10 then 5.00
  else if distance ≤ 20 then 7.50
  else 10.00

/-- `validateLatitude` of the delivery-estimate route (on a parsed body
value, modelled as `ℚ`). -/
def validateLatitude (lat : ℚ) : Bool :=
  decide (-90 ≤ lat) && decide (lat ≤ 90)

/-- `validateLongitude` of the delivery-estimate route. -/
def validateLongitude (lon : ℚ) : Bool :=
  decide (-180 ≤ lon) && decide (lon ≤ 180)

/-- Outcome of the delivery-estimate POST handler: an error JSON with an
HTTP status and a `code`, or the success payload (here reduced to the
computed `distance`, `travelTime` and `deliveryFee` fields). -/
inductive EstimateResponse where
  | errorResp (status : ℕ) (code : String)
  | success (distance : ℝ) (travelTime : ℝ) (deliveryFee : ℝ)

/-- The delivery-estimate POST handler from the coordinate-range
validation onward (the earlier checks only reject absent or unparsable
body fields, which are outside this model): validate the delivery point,
look up the pharmacy, reject with 400 `PHARMACY_COORDINATES_MISSING`
when `!pharmacyData.latitude || !pharmacyData.longitude` (JavaScript
truthiness, so latitude or longitude 0 is rejected like `null`), and
otherwise compute distance, travel time and fee. -/
noncomputable def estimatePost (pharmacyExists : Bool)
    (pharmacyLat pharmacyLon : Option ℚ) (deliveryLat deliveryLon : ℚ) :
    EstimateResponse :=
  if !validateLatitude deliveryLat then .errorResp 400 "INVALID_LATITUDE"
  else if !validateLongitude deliveryLon then .errorResp 400 "INVALID_LONGITUDE"
  else if !pharmacyExists then .errorResp 404 "PHARMACY_NOT_FOUND"
  else if !(truthy pharmacyLat && truthy pharmacyLon) then
    .errorResp 400 "PHARMACY_COORDINATES_MISSING"
  else
    let d := calculateDistance ((pharmacyLat.getD 0 : ℚ) : ℝ)
      ((pharmacyLon.getD 0 : ℚ) : ℝ) ((deliveryLat : ℚ) : ℝ) ((deliveryLon : ℚ) : ℝ)
    .success d (calculateTravelTime d) (calculateDeliveryFee d)

end EstimateDelivery

/-! ## src/app/api/order-items/route.ts (delivery-tracking document) -/

namespace Tracking

/-- The local `a` of the tracking `calculateDistance`. -/
noncomputable def havTerm (lat1 lon1 lat2 lon2 : ℝ) : ℝ :=
  Real.sin ((lat2 - lat1) * Real.pi / 180 / 2) *
      Real.sin ((lat2 - lat1) * Real.pi / 180 / 2) +
    Real.cos (lat1 * Real.pi / 180) * Real.cos (lat2 * Real.pi / 180) *
      (Real.sin ((lon2 - lon1) * Real.pi / 180 / 2) *
        Real.sin ((lon2 - lon1) * Real.pi / 180 / 2))

/-- The local `distance = R * c` of the tracking `calculateDistance`. -/
noncomputable def distanceRaw (lat1 lon1 lat2 lon2 : ℝ) : ℝ :=
  6371 * (2 * atan2 (Real.sqrt (havTerm lat1 lon1 lat2 lon2))
    (Real.sqrt (1 - havTerm lat1 lon1 lat2 lon2)))

/-- `calculateDistance` of the tracking route: haversine distance rounded
to 1 decimal place (`Math.round(distance * 10) / 10`). -/
noncomputable def calculateDistance (lat1 lon1 lat2 lon2 : ℝ) : ℝ :=
  ((round (distanceRaw lat1 lon1 lat2 lon2 * 10) : ℤ) : ℝ) / 10

/-- `calculateETA` of the tracking route: `Math.ceil(distanceKm * 5)`. -/
noncomputable def calculateETA (distanceKm : ℝ) : ℤ :=
  ⌈distanceKm * 5⌉

/-- `calculateProgress` of the tracking route.  The first guard is the
source check `if (!currentLat || !currentLon) return 0` (JavaScript
truthiness, so a 0 coordinate also returns 0); then
`if (totalDistance === 0) return 100`; otherwise the interpolated
percentage clamped by `Math.max(0, Math.min(100, Math.round(...)))`. -/
noncomputable def calculateProgress (pharmacyLat pharmacyLon : ℚ)
    (currentLat currentLon : Option ℚ) (destLat destLon : ℚ) : ℤ :=
  if !(truthy currentLat && truthy currentLon) then 0
  else
    let totalDistance := calculateDistance pharmacyLat pharmacyLon destLat destLon
    let remainingDistance := calculateDistance
      ((currentLat.getD 0 : ℚ) : ℝ) ((currentLon.getD 0 : ℚ) : ℝ) destLat destLon
    if totalDistance = 0 then 100
    else max 0 (min 100 (round ((totalDistance - remainingDistance) / totalDistance * 100)))

/-- The `picked_up` / `on_the_way` branch of the tracking GET handler
computes `Math.min(50, Math.round((timeSincePickup / estimatedTimeRemaining) * 100))`.
When `estimatedTimeRemaining = 0` the JavaScript division produces `NaN`
(for `timeSincePickup = 0`) or `±Infinity`; `Math.round` preserves these,
`Math.min(50, Infinity) = 50`, `Math.min(50, NaN) = NaN` and
`Math.min(50, -Infinity) = -Infinity`, and `JSON.stringify` turns `NaN`
and `-Infinity` into `null`.  `none` models that non-numeric outcome. -/
noncomputable def pickupProgress (timeSincePickup : ℚ) (estimatedTimeRemaining : ℤ) :
    Option ℤ :=
  if estimatedTimeRemaining = 0 then
    if 0 < timeSincePickup then some 50 else none
  else
    some (min 50 (round ((timeSincePickup : ℝ) / (estimatedTimeRemaining : ℝ) * 100)))

/-- The database rows the tracking GET handler branches on: the order row
destination (`deliveryLatitude` / `deliveryLongitude`, nullable), the
delivery row (`currentLatitude` / `currentLongitude` nullable, `status`,
`pickedUpAt`), and the pharmacy row coordinates (`notNull` in the
schema).  Timestamps are milliseconds since the epoch. -/
structure TrackingState where
  destLat : Option ℚ
  destLon : Option ℚ
  currentLat : Option ℚ
  currentLon : Option ℚ
  pharmacyLat : ℚ
  pharmacyLon : ℚ
  status : String
  pickedUpAt : Option ℚ

/-- The tracking fields of the GET response:
`currentDistance`, `estimatedTimeRemaining` and `progressPercentage`
(initialised to `null`, `null`, `0` respectively).  `none` in
`progressPercentage` models the `NaN` / `-Infinity` outcome of the
`picked_up` branch, which serialises as `null`. -/
structure TrackingResult where
  currentDistance : Option ℝ
  estimatedTimeRemaining : Option ℤ
  progressPercentage : Option ℤ

/-- The tracking computation of the GET handler
(`if (destLat && destLon) { ... }` with its four status branches),
evaluated at time `now` (milliseconds since the epoch). -/
noncomputable def trackingInfo (s : TrackingState) (now : ℚ) : TrackingResult :=
  if truthy s.destLat && truthy s.destLon then
    let dLat : ℝ := ((s.destLat.getD 0 : ℚ) : ℝ)
    let dLon : ℝ := ((s.destLon.getD 0 : ℚ) : ℝ)
    if truthy s.currentLat && truthy s.currentLon then
      let d := calculateDistance ((s.currentLat.getD 0 : ℚ) : ℝ)
        ((s.currentLon.getD 0 : ℚ) : ℝ) dLat dLon
      { currentDistance := some d
        estimatedTimeRemaining := some (calculateETA d)
        progressPercentage := some (calculateProgress s.pharmacyLat s.pharmacyLon
          s.currentLat s.currentLon (s.destLat.getD 0) (s.destLon.getD 0)) }
    else if s.status = "assigned" ∨ s.status = "accepted" then
      let d := calculateDistance ((s.pharmacyLat : ℚ) : ℝ) ((s.pharmacyLon : ℚ) : ℝ) dLat dLon
      { currentDistance := some d
        estimatedTimeRemaining := some (calculateETA d)
        progressPercentage := some 0 }
    else if s.status = "picked_up" ∨ s.status = "on_the_way" then
      let d := calculateDistance ((s.pharmacyLat : ℚ) : ℝ) ((s.pharmacyLon : ℚ) : ℝ) dLat dLon
      let eta := calculateETA d
      let timeSincePickup : ℚ := match s.pickedUpAt with
        | some p => (now - p) / 60000
        | none => 0
      { currentDistance := some d
        estimatedTimeRemaining := some eta
        progressPercentage := pickupProgress timeSincePickup eta }
    else if s.status = "delivered" then
      { currentDistance := some 0
        estimatedTimeRemaining := some 0
        progressPercentage := some 100 }
    else
      { currentDistance := none
        estimatedTimeRemaining := none
        progressPercentage := some 0 }
  else
    { currentDistance := none
      estimatedTimeRemaining := none
      progressPercentage := some 0 }

end Tracking

/-! ## src/app/api/inventory/check-stock/route.ts -/

namespace CheckStock

/-- The local `a` of the check-stock `calculateDistance`. -/
noncomputable def havTerm (lat1 lon1 lat2 lon2 : ℝ) : ℝ :=
  Real.sin ((lat2 - lat1) * Real.pi / 180 / 2) *
      Real.sin ((lat2 - lat1) * Real.pi / 180 / 2) +
    Real.cos (lat1 * Real.pi / 180) * Real.cos (lat2 * Real.pi / 180) *
      (Real.sin ((lon2 - lon1) * Real.pi / 180 / 2) *
        Real.sin ((lon2 - lon1) * Real.pi / 180 / 2))

/-- `calculateDistance` of the check-stock route: it returns `R * c`
directly, with no rounding inside the function. -/
noncomputable def calculateDistance (lat1 lon1 lat2 lon2 : ℝ) : ℝ :=
  6371 * (2 * atan2 (Real.sqrt (havTerm lat1 lon1 lat2 lon2))
    (Real.sqrt (1 - havTerm lat1 lon1 lat2 lon2)))

/-- The check-stock GET call site stores
`parseFloat(distance.toFixed(2))`.  ECMA-262 `toFixed` picks the larger
candidate integer on ties, so on every real input this equals
`Math.round(x * 100) / 100`. -/
noncomputable def reportedDistance (lat1 lon1 lat2 lon2 : ℝ) : ℝ :=
  ((round (calculateDistance lat1 lon1 lat2 lon2 * 100) : ℤ) : ℝ) / 100

end CheckStock

/-! ## src/unnamed/part_001 (nearby-pharmacy route) -/

namespace NearbyPharmacy

/-- The local `a` of the nearby-pharmacy `calculateDistance`. -/
noncomputable def havTerm (lat1 lon1 lat2 lon2 : ℝ) : ℝ :=
  Real.sin ((lat2 - lat1) * Real.pi / 180 / 2) *
      Real.sin ((lat2 - lat1) * Real.pi / 180 / 2) +
    Real.cos (lat1 * Real.pi / 180) * Real.cos (lat2 * Real.pi / 180) *
      (Real.sin ((lon2 - lon1) * Real.pi / 180 / 2) *
        Real.sin ((lon2 - lon1) * Real.pi / 180 / 2))

/-- The local `distance = R * c` of the nearby-pharmacy
`calculateDistance`. -/
noncomputable def distanceRaw (lat1 lon1 lat2 lon2 : ℝ) : ℝ :=
  6371 * (2 * atan2 (Real.sqrt (havTerm lat1 lon1 lat2 lon2))
    (Real.sqrt (1 - havTerm lat1 lon1 lat2 lon2)))

/-- `calculateDistance` of the nearby-pharmacy route: haversine distance
rounded to 2 decimal places. -/
noncomputable def calculateDistance (lat1 lon1 lat2 lon2 : ℝ) : ℝ :=
  ((round (distanceRaw lat1 lon1 lat2 lon2 * 100) : ℤ) : ℝ) / 100

end NearbyPharmacy

/-! ## Concrete database states used to evaluate the tracking handler -/

/-- A delivery that is picked up, has no live position, destination
(90, 180), pharmacy (-90, 180), and a `pickedUpAt` timestamp 100000
minutes in the future of the evaluation time 0. -/
def futurePickupState : Tracking.TrackingState :=
  { destLat := some 90, destLon := some 180, currentLat := none, currentLon := none,
    pharmacyLat := -90, pharmacyLon := 180, status := "picked_up",
    pickedUpAt := some 6000000000 }

/-- A picked-up delivery with no live position and no `pickedUpAt`, whose
pharmacy sits exactly at the destination (40, 3). -/
def pharmacyAtDestState : Tracking.TrackingState :=
  { destLat := some 40, destLon := some 3, currentLat := none, currentLon := none,
    pharmacyLat := 40, pharmacyLon := 3, status := "picked_up", pickedUpAt := none }

/-- A delivered order whose order row has no destination coordinates. -/
def deliveredNoDest : Tracking.TrackingState :=
  { destLat := none, destLon := none, currentLat := none, currentLon := none,
    pharmacyLat := 10, pharmacyLon := 10, status := "delivered", pickedUpAt := some 0 }

/-- A delivered order with destination coordinates and no live position. -/
def deliveredState : Tracking.TrackingState :=
  { destLat := some 5, destLon := some 6, currentLat := none, currentLon := none,
    pharmacyLat := 1, pharmacyLon := 1, status := "delivered", pickedUpAt := some 0 }

/-- An order with no destination coordinates and an unstarted delivery. -/
def idleState : Tracking.TrackingState :=
  { destLat := none, destLon := none, currentLat := none, currentLon := none,
    pharmacyLat := 0, pharmacyLon := 0, status := "pending", pickedUpAt := none }

/-- An on-the-way delivery whose order stores destination latitude and
longitude 0 (present but falsy for the handler). -/
def zeroDestState : Tracking.TrackingState :=
  { destLat := some 0, destLon := some 0, currentLat := none, currentLon := none,
    pharmacyLat := 1, pharmacyLon := 1, status := "on_the_way", pickedUpAt := none }

/-! ## Shared facts about the haversine implementations -/

theorem tracking_raw_eq : Tracking.distanceRaw = EstimateDelivery.distanceRaw := rfl

theorem checkStock_raw_eq :
    CheckStock.calculateDistance = EstimateDelivery.distanceRaw := rfl

theorem nearby_raw_eq : NearbyPharmacy.distanceRaw = EstimateDelivery.distanceRaw := rfl

theorem nearby_calc_eq :
    NearbyPharmacy.calculateDistance = EstimateDelivery.calculateDistance := rfl

theorem havTerm_symm (lat1 lon1 lat2 lon2 : ℝ) :
    EstimateDelivery.havTerm lat1 lon1 lat2 lon2 =
      EstimateDelivery.havTerm lat2 lon2 lat1 lon1 := by
  unfold EstimateDelivery.havTerm
  have key : ∀ u v : ℝ,
      Real.sin ((u - v) * Real.pi / 180 / 2) * Real.sin ((u - v) * Real.pi / 180 / 2) =
        Real.sin ((v - u) * Real.pi / 180 / 2) * Real.sin ((v - u) * Real.pi / 180 / 2) := by
    intro u v
    rw [show (u - v) * Real.pi / 180 / 2 = -((v - u) * Real.pi / 180 / 2) by ring,
      Real.sin_neg]
    ring
  rw [key lat2 lat1, key lon2 lon1]
  ring

theorem distanceRaw_symm (lat1 lon1 lat2 lon2 : ℝ) :
    EstimateDelivery.distanceRaw lat1 lon1 lat2 lon2 =
      EstimateDelivery.distanceRaw lat2 lon2 lat1 lon1 := by
  unfold EstimateDelivery.distanceRaw
  rw [havTerm_symm]

theorem distanceRaw_nonneg (lat1 lon1 lat2 lon2 : ℝ) :
    0 ≤ EstimateDelivery.distanceRaw lat1 lon1 lat2 lon2 := by
  unfold EstimateDelivery.distanceRaw
  have h := atan2_nonneg
    (Real.sqrt_nonneg (EstimateDelivery.havTerm lat1 lon1 lat2 lon2))
    (Real.sqrt_nonneg (1 - EstimateDelivery.havTerm lat1 lon1 lat2 lon2))
  linarith

theorem havTerm_self (lat lon : ℝ) : EstimateDelivery.havTerm lat lon lat lon = 0 := by
  unfold EstimateDelivery.havTerm
  rw [show (lat - lat) * Real.pi / 180 / 2 = 0 by ring,
    show (lon - lon) * Real.pi / 180 / 2 = 0 by ring, Real.sin_zero]
  ring

theorem atan2_zero_one : atan2 0 1 = 0 := by
  unfold atan2
  rw [if_pos (by norm_num : (0:ℝ) < 1)]
  norm_num [Real.arctan_zero]

theorem atan2_one_zero : atan2 1 0 = Real.pi / 2 := by
  unfold atan2
  rw [if_neg (lt_irrefl 0), if_neg (by norm_num), if_neg (by norm_num),
    if_pos ⟨rfl, by norm_num⟩]

theorem distanceRaw_self (lat lon : ℝ) :
    EstimateDelivery.distanceRaw lat lon lat lon = 0 := by
  unfold EstimateDelivery.distanceRaw
  rw [havTerm_self]
  rw [Real.sqrt_zero, show (1:ℝ) - 0 = 1 by norm_num, Real.sqrt_one, atan2_zero_one]
  ring

theorem round_nonneg_of_nonneg {x : ℝ} (hx : 0 ≤ x) : 0 ≤ round x := by
  rw [round_eq]
  exact Int.le_floor.mpr (by push_cast; linarith)

theorem round2_close (x : ℝ) : |((round (x * 100) : ℤ) : ℝ) / 100 - x| ≤ 1 / 200 := by
  have h := abs_sub_round (x * 100)
  rw [abs_le] at h ⊢
  constructor <;> [linarith [h.1, h.2]; linarith [h.1, h.2]]

theorem round1_close (x : ℝ) : |((round (x * 10) : ℤ) : ℝ) / 10 - x| ≤ 1 / 20 := by
  have h := abs_sub_round (x * 10)
  rw [abs_le] at h ⊢
  constructor <;> [linarith [h.1, h.2]; linarith [h.1, h.2]]

theorem tracking_calc_nonneg (lat1 lon1 lat2 lon2 : ℝ) :
    0 ≤ Tracking.calculateDistance lat1 lon1 lat2 lon2 := by
  show 0 ≤ ((round (Tracking.distanceRaw lat1 lon1 lat2 lon2 * 10) : ℤ) : ℝ) / 10
  rw [tracking_raw_eq]
  have h := distanceRaw_nonneg lat1 lon1 lat2 lon2
  exact div_nonneg
    (Int.cast_nonneg.mpr (round_nonneg_of_nonneg (by linarith))) (by norm_num)

theorem tracking_self_zero (lat lon : ℝ) :
    Tracking.calculateDistance lat lon lat lon = 0 := by
  unfold Tracking.calculateDistance
  rw [tracking_raw_eq, distanceRaw_self]
  norm_num

theorem calculateETA_nonneg {x : ℝ} (hx : 0 ≤ x) : 0 ≤ Tracking.calculateETA x :=
  Int.ceil_nonneg (by nlinarith)

/-! ## Pinned evaluations for the tracking counterexamples -/

theorem havTerm_pin : EstimateDelivery.havTerm (-90) 180 90 180 = 1 := by
  unfold EstimateDelivery.havTerm
  rw [show ((90 : ℝ) - -90) * Real.pi / 180 / 2 = Real.pi / 2 by ring,
    show ((180 : ℝ) - 180) * Real.pi / 180 / 2 = 0 by ring,
    Real.sin_pi_div_two, Real.sin_zero]
  ring

theorem raw_pin : EstimateDelivery.distanceRaw (-90) 180 90 180 = 6371 * Real.pi := by
  unfold EstimateDelivery.distanceRaw
  rw [havTerm_pin, show (1 : ℝ) - 1 = 0 by norm_num, Real.sqrt_one, Real.sqrt_zero,
    atan2_one_zero]
  ring

theorem dist_pin : Tracking.calculateDistance (-90) 180 90 180 = 200151 / 10 := by
  unfold Tracking.calculateDistance
  rw [tracking_raw_eq, raw_pin]
  have h : round (6371 * Real.pi * 10) = 200151 := by
    rw [round_eq, Int.floor_eq_iff]
    constructor
    · push_cast
      nlinarith [Real.pi_gt_3141592]
    · push_cast
      nlinarith [Real.pi_lt_3141593]
  rw [h]
  norm_num

theorem eta_pin : Tracking.calculateETA (200151 / 10) = 100076 := by
  unfold Tracking.calculateETA
  rw [Int.ceil_eq_iff]
  constructor <;> norm_num

theorem pickupProgress_pin : Tracking.pickupProgress (-100000) 100076 = some (-100) := by
  unfold Tracking.pickupProgress
  rw [if_neg (by norm_num : ¬(100076 : ℤ) = 0)]
  have hv : ((-100000 : ℚ) : ℝ) / ((100076 : ℤ) : ℝ) * 100 = -10000000 / 100076 := by
    push_cast
    ring
  rw [hv]
  have hr : round ((-10000000 : ℝ) / 100076) = -100 := by
    rw [round_eq, Int.floor_eq_iff]
    constructor <;> norm_num
  rw [hr, min_eq_right (by norm_num : (-100 : ℤ) ≤ 50)]

/-! ## Range facts about the progress computations -/

theorem calculateProgress_mem (pharmacyLat pharmacyLon : ℚ)
    (currentLat currentLon : Option ℚ) (destLat destLon : ℚ) :
    0 ≤ Tracking.calculateProgress pharmacyLat pharmacyLon currentLat currentLon
        destLat destLon ∧
    Tracking.calculateProgress pharmacyLat pharmacyLon currentLat currentLon
        destLat destLon ≤ 100 := by
  unfold Tracking.calculateProgress
  split_ifs with h1
  · norm_num
  · dsimp only
    split_ifs with h2
    · norm_num
    · exact ⟨le_max_left 0 _, max_le (by norm_num) (min_le_left _ _)⟩

theorem pickupProgress_le_50 {t : ℚ} {eta : ℤ} :
    ∀ p : ℤ, Tracking.pickupProgress t eta = some p → p ≤ 50 := by
  intro p hp
  unfold Tracking.pickupProgress at hp
  split_ifs at hp with h1 h2
  · injection hp with h
    omega
  · injection hp with h
    rw [← h]
    exact min_le_left _ _

theorem pickupProgress_mem {t : ℚ} {eta : ℤ} (ht : 0 ≤ t) (heta : 0 ≤ eta) :
    ∀ p : ℤ, Tracking.pickupProgress t eta = some p → 0 ≤ p ∧ p ≤ 100 := by
  intro p hp
  unfold Tracking.pickupProgress at hp
  split_ifs at hp with h1 h2
  · injection hp with h
    omega
  · have hpos : (0 : ℤ) < eta := lt_of_le_of_ne heta (Ne.symm h1)
    injection hp with h
    rw [← h]
    have hq : (0 : ℝ) ≤ (t : ℝ) / (eta : ℝ) * 100 := by
      have h1 : (0 : ℝ) ≤ (t : ℝ) := by exact_mod_cast ht
      have h2 : (0 : ℝ) < (eta : ℝ) := by exact_mod_cast hpos
      positivity
    constructor
    · exact le_min (by norm_num) (round_nonneg_of_nonneg hq)
    · exact le_trans (min_le_left _ _) (by norm_num)

/-! ## Branch lemmas and evaluations of the tracking handler -/

theorem trackingInfo_pickup (s : Tracking.TrackingState) (now : ℚ)
    (hdest : (truthy s.destLat && truthy s.destLon) = true)
    (hcur : (truthy s.currentLat && truthy s.currentLon) = false)
    (hst1 : ¬(s.status = "assigned" ∨ s.status = "accepted"))
    (hst2 : s.status = "picked_up" ∨ s.status = "on_the_way") :
    (Tracking.trackingInfo s now).progressPercentage =
      Tracking.pickupProgress
        (match s.pickedUpAt with
          | some p => (now - p) / 60000
          | none => 0)
        (Tracking.calculateETA (Tracking.calculateDistance ((s.pharmacyLat : ℚ) : ℝ)
          ((s.pharmacyLon : ℚ) : ℝ) ((s.destLat.getD 0 : ℚ) : ℝ)
          ((s.destLon.getD 0 : ℚ) : ℝ))) := by
  unfold Tracking.trackingInfo
  rw [if_pos hdest, if_neg (by rw [hcur]; exact Bool.false_ne_true),
    if_neg hst1, if_pos hst2]

theorem trackingInfo_delivered (s : Tracking.TrackingState) (now : ℚ)
    (hdest : (truthy s.destLat && truthy s.destLon) = true)
    (hcur : (truthy s.currentLat && truthy s.currentLon) = false)
    (hst : s.status = "delivered") :
    Tracking.trackingInfo s now =
      { currentDistance := some 0, estimatedTimeRemaining := some 0,
        progressPercentage := some 100 } := by
  unfold Tracking.trackingInfo
  rw [if_pos hdest, if_neg (by rw [hcur]; exact Bool.false_ne_true),
    if_neg (by rw [hst]; decide), if_neg (by rw [hst]; decide), if_pos hst]

theorem future_pickup_progress :
    (Tracking.trackingInfo futurePickupState 0).progressPercentage = some (-100) := by
  rw [trackingInfo_pickup futurePickupState 0 (by decide) (by decide) (by decide)
    (Or.inl rfl)]
  norm_num [futurePickupState]
  rw [dist_pin, eta_pin, pickupProgress_pin]

theorem pharmacyAtDest_progress :
    (Tracking.trackingInfo pharmacyAtDestState 0).progressPercentage = none := by
  rw [trackingInfo_pickup pharmacyAtDestState 0 (by decide) (by decide) (by decide)
    (Or.inl rfl)]
  norm_num [pharmacyAtDestState]
  rw [tracking_self_zero]
  norm_num [Tracking.calculateETA, Tracking.pickupProgress]

theorem trackingInfo_noDest (s : Tracking.TrackingState) (now : ℚ)
    (hdest : (truthy s.destLat && truthy s.destLon) = false) :
    Tracking.trackingInfo s now =
      { currentDistance := none, estimatedTimeRemaining := none,
        progressPercentage := some 0 } := by
  unfold Tracking.trackingInfo
  rw [if_neg (by rw [hdest]; exact Bool.false_ne_true)]

theorem deliveredNoDest_progress :
    (Tracking.trackingInfo deliveredNoDest 0).progressPercentage = some 0 := by
  rw [trackingInfo_noDest deliveredNoDest 0 (by decide)]

theorem idle_progress :
    (Tracking.trackingInfo idleState 0).progressPercentage = some 0 := by
  rw [trackingInfo_noDest idleState 0 (by decide)]

theorem zeroDest_progress :
    (Tracking.trackingInfo zeroDestState 0).progressPercentage = some 0 := by
  rw [trackingInfo_noDest zeroDestState 0 (by decide)]

/-! ## Claim theorems -/

/-- C4: `calculateTravelTime` and `calculateDeliveryFee` are monotonically
non-decreasing step functions of distance, and at the boundary distances
2, 5, 10 and 20 km they return the lower bucket values (10/20/35/60
minutes, 2.00/3.50/5.00/7.50 dollars). -/
theorem travelTime_fee_monotone_boundaries :
    (∀ d1 d2 : ℝ, d1 ≤ d2 →
      EstimateDelivery.calculateTravelTime d1 ≤ EstimateDelivery.calculateTravelTime d2 ∧
      EstimateDelivery.calculateDeliveryFee d1 ≤ EstimateDelivery.calculateDeliveryFee d2) ∧
    EstimateDelivery.calculateTravelTime 2 = 10 ∧
    EstimateDelivery.calculateTravelTime 5 = 20 ∧
    EstimateDelivery.calculateTravelTime 10 = 35 ∧
    EstimateDelivery.calculateTravelTime 20 = 60 ∧
    EstimateDelivery.calculateDeliveryFee 2 = 2.00 ∧
    EstimateDelivery.calculateDeliveryFee 5 = 3.50 ∧
    EstimateDelivery.calculateDeliveryFee 10 = 5.00 ∧
    EstimateDelivery.calculateDeliveryFee 20 = 7.50 := by
  refine ⟨fun d1 d2 h => ⟨?_, ?_⟩, ?_, ?_, ?_, ?_, ?_, ?_, ?_, ?_⟩
  · unfold EstimateDelivery.calculateTravelTime
    split_ifs <;> linarith
  · unfold EstimateDelivery.calculateDeliveryFee
    split_ifs <;> linarith
  all_goals norm_num [EstimateDelivery.calculateTravelTime,
    EstimateDelivery.calculateDeliveryFee]

/-- Witness for C4 at the concrete pair of distances 1 ≤ 3. -/
theorem travelTime_fee_monotone_boundaries_witness :
    (1 : ℝ) ≤ 3 ∧
    (EstimateDelivery.calculateTravelTime 1 ≤ EstimateDelivery.calculateTravelTime 3 ∧
      EstimateDelivery.calculateDeliveryFee 1 ≤ EstimateDelivery.calculateDeliveryFee 3) :=
  ⟨by norm_num, travelTime_fee_monotone_boundaries.1 1 3 (by norm_num)⟩

/-- C5: the stepped lookup `calculateTravelTime` of the delivery-estimate
route and the linear `calculateETA` of the tracking route disagree at some
non-negative distance (here 1 km: 10 minutes versus 5 minutes). -/
theorem eta_models_inconsistent :
    ∃ d : ℝ, 0 ≤ d ∧
      EstimateDelivery.calculateTravelTime d ≠ ((Tracking.calculateETA d : ℤ) : ℝ) := by
  refine ⟨1, by norm_num, ?_⟩
  have h1 : EstimateDelivery.calculateTravelTime 1 = 10 := by
    norm_num [EstimateDelivery.calculateTravelTime]
  have h2 : Tracking.calculateETA 1 = 5 := by
    unfold Tracking.calculateETA
    rw [one_mul, Int.ceil_eq_iff] <;> norm_num
  rw [h1, h2]
  norm_num

/-- C7: `calculateDistance` is symmetric in its two points, for the
delivery-estimate implementation and the nearby-pharmacy implementation. -/
theorem calculateDistance_symm (lat1 lon1 lat2 lon2 : ℝ)
    (h1 : -90 ≤ lat1 ∧ lat1 ≤ 90) (h2 : -90 ≤ lat2 ∧ lat2 ≤ 90)
    (h3 : -180 ≤ lon1 ∧ lon1 ≤ 180) (h4 : -180 ≤ lon2 ∧ lon2 ≤ 180) :
    EstimateDelivery.calculateDistance lat1 lon1 lat2 lon2 =
      EstimateDelivery.calculateDistance lat2 lon2 lat1 lon1 ∧
    NearbyPharmacy.calculateDistance lat1 lon1 lat2 lon2 =
      NearbyPharmacy.calculateDistance lat2 lon2 lat1 lon1 := by
  have key : EstimateDelivery.calculateDistance lat1 lon1 lat2 lon2 =
      EstimateDelivery.calculateDistance lat2 lon2 lat1 lon1 := by
    unfold EstimateDelivery.calculateDistance
    rw [distanceRaw_symm]
  exact ⟨key, by rw [nearby_calc_eq]; exact key⟩

/-- Witness for C7 at the concrete points (10, 20) and (-30, 40). -/
theorem calculateDistance_symm_witness :
    ((-90 : ℝ) ≤ 10 ∧ (10 : ℝ) ≤ 90) ∧
    (EstimateDelivery.calculateDistance 10 20 (-30) 40 =
        EstimateDelivery.calculateDistance (-30) 40 10 20 ∧
      NearbyPharmacy.calculateDistance 10 20 (-30) 40 =
        NearbyPharmacy.calculateDistance (-30) 40 10 20) :=
  ⟨⟨by norm_num, by norm_num⟩,
    calculateDistance_symm 10 20 (-30) 40 (by norm_num) (by norm_num)
      (by norm_num) (by norm_num)⟩

/-- C8: `calculateDistance` applied to two identical coordinates returns
0 (delivery-estimate implementation). -/
theorem calculateDistance_self_zero (lat lon : ℝ)
    (hlat : -90 ≤ lat ∧ lat ≤ 90) (hlon : -180 ≤ lon ∧ lon ≤ 180) :
    EstimateDelivery.calculateDistance lat lon lat lon = 0 := by
  unfold EstimateDelivery.calculateDistance
  rw [distanceRaw_self]
  norm_num

/-- Witness for C8 at the concrete point (45, 120). -/
theorem calculateDistance_self_zero_witness :
    ((-90 : ℝ) ≤ 45 ∧ (45 : ℝ) ≤ 90) ∧
    EstimateDelivery.calculateDistance 45 120 45 120 = 0 :=
  ⟨⟨by norm_num, by norm_num⟩,
    calculateDistance_self_zero 45 120 (by norm_num) (by norm_num)⟩

/-- C9: every `calculateDistance` implementation returns a non-negative
number on in-range coordinates. -/
theorem calculateDistance_nonneg (lat1 lon1 lat2 lon2 : ℝ)
    (h1 : -90 ≤ lat1 ∧ lat1 ≤ 90) (h2 : -90 ≤ lat2 ∧ lat2 ≤ 90)
    (h3 : -180 ≤ lon1 ∧ lon1 ≤ 180) (h4 : -180 ≤ lon2 ∧ lon2 ≤ 180) :
    0 ≤ EstimateDelivery.calculateDistance lat1 lon1 lat2 lon2 ∧
    0 ≤ Tracking.calculateDistance lat1 lon1 lat2 lon2 ∧
    0 ≤ CheckStock.calculateDistance lat1 lon1 lat2 lon2 ∧
    0 ≤ NearbyPharmacy.calculateDistance lat1 lon1 lat2 lon2 := by
  have hraw := distanceRaw_nonneg lat1 lon1 lat2 lon2
  have h100 : 0 ≤ ((round (EstimateDelivery.distanceRaw lat1 lon1 lat2 lon2 * 100) : ℤ) : ℝ) :=
    Int.cast_nonneg.mpr (round_nonneg_of_nonneg (by linarith))
  have h10 : 0 ≤ ((round (EstimateDelivery.distanceRaw lat1 lon1 lat2 lon2 * 10) : ℤ) : ℝ) :=
    Int.cast_nonneg.mpr (round_nonneg_of_nonneg (by linarith))
  refine ⟨div_nonneg h100 (by norm_num), ?_, ?_, ?_⟩
  · show 0 ≤ ((round (Tracking.distanceRaw lat1 lon1 lat2 lon2 * 10) : ℤ) : ℝ) / 10
    rw [tracking_raw_eq]
    exact div_nonneg h10 (by norm_num)
  · rw [checkStock_raw_eq]
    exact hraw
  · rw [nearby_calc_eq]
    exact div_nonneg h100 (by norm_num)

/-- Witness for C9 at the concrete points (0, 0) and (1, 1). -/
theorem calculateDistance_nonneg_witness :
    ((-90 : ℝ) ≤ 0 ∧ (0 : ℝ) ≤ 90) ∧
    (0 ≤ EstimateDelivery.calculateDistance 0 0 1 1 ∧
      0 ≤ Tracking.calculateDistance 0 0 1 1 ∧
      0 ≤ CheckStock.calculateDistance 0 0 1 1 ∧
      0 ≤ NearbyPharmacy.calculateDistance 0 0 1 1) :=
  ⟨⟨by norm_num, by norm_num⟩,
    calculateDistance_nonneg 0 0 1 1 (by norm_num) (by norm_num)
      (by norm_num) (by norm_num)⟩

/-- C6: the four haversine implementations share the same unrounded
distance (Earth radius 6371), and the reported values are that common
value rounded to 2 decimal places (delivery-estimate, nearby-pharmacy and
the check-stock `toFixed(2)` call site) or 1 decimal place (tracking),
hence each reported value lies within half the respective granularity of
the common unrounded distance. -/
theorem haversine_impls_agree (lat1 lon1 lat2 lon2 : ℝ)
    (h1 : -90 ≤ lat1 ∧ lat1 ≤ 90) (h2 : -90 ≤ lat2 ∧ lat2 ≤ 90)
    (h3 : -180 ≤ lon1 ∧ lon1 ≤ 180) (h4 : -180 ≤ lon2 ∧ lon2 ≤ 180) :
    Tracking.distanceRaw lat1 lon1 lat2 lon2 =
        EstimateDelivery.distanceRaw lat1 lon1 lat2 lon2 ∧
    CheckStock.calculateDistance lat1 lon1 lat2 lon2 =
        EstimateDelivery.distanceRaw lat1 lon1 lat2 lon2 ∧
    NearbyPharmacy.distanceRaw lat1 lon1 lat2 lon2 =
        EstimateDelivery.distanceRaw lat1 lon1 lat2 lon2 ∧
    NearbyPharmacy.calculateDistance lat1 lon1 lat2 lon2 =
        EstimateDelivery.calculateDistance lat1 lon1 lat2 lon2 ∧
    CheckStock.reportedDistance lat1 lon1 lat2 lon2 =
        ((round (EstimateDelivery.distanceRaw lat1 lon1 lat2 lon2 * 100) : ℤ) : ℝ) / 100 ∧
    |EstimateDelivery.calculateDistance lat1 lon1 lat2 lon2 -
        EstimateDelivery.distanceRaw lat1 lon1 lat2 lon2| ≤ 1 / 200 ∧
    |Tracking.calculateDistance lat1 lon1 lat2 lon2 -
        EstimateDelivery.distanceRaw lat1 lon1 lat2 lon2| ≤ 1 / 20 :=
  ⟨rfl, rfl, rfl, rfl, rfl,
    round2_close (EstimateDelivery.distanceRaw lat1 lon1 lat2 lon2),
    round1_close (EstimateDelivery.distanceRaw lat1 lon1 lat2 lon2)⟩

/-- Witness for C6 at the concrete points (12, 77) and (13, 80). -/
theorem haversine_impls_agree_witness :
    ((-90 : ℝ) ≤ 12 ∧ (12 : ℝ) ≤ 90) ∧
    |Tracking.calculateDistance 12 77 13 80 -
        EstimateDelivery.distanceRaw 12 77 13 80| ≤ 1 / 20 :=
  ⟨⟨by norm_num, by norm_num⟩,
    (haversine_impls_agree 12 77 13 80 (by norm_num) (by norm_num)
      (by norm_num) (by norm_num)).2.2.2.2.2.2⟩

/-- C10: when the pharmacy row exists but its latitude or longitude is
`null` or 0, the delivery-estimate POST handler rejects the request with
HTTP 400 and code `PHARMACY_COORDINATES_MISSING` (no distance is
computed), even though the same handler accepts latitude 0 and longitude
0 for the delivery point. -/
theorem pharmacy_zero_coords_rejected (phLat phLon : Option ℚ) (dLat dLon : ℚ)
    (hph : phLat = none ∨ phLat = some 0 ∨ phLon = none ∨ phLon = some 0)
    (hlat : EstimateDelivery.validateLatitude dLat = true)
    (hlon : EstimateDelivery.validateLongitude dLon = true) :
    EstimateDelivery.estimatePost true phLat phLon dLat dLon =
      EstimateDelivery.EstimateResponse.errorResp 400 "PHARMACY_COORDINATES_MISSING" ∧
    EstimateDelivery.validateLatitude 0 = true ∧
    EstimateDelivery.validateLongitude 0 = true := by
  refine ⟨?_, by decide, by decide⟩
  have htr : (truthy phLat && truthy phLon) = false := by
    rcases hph with h | h | h | h <;> subst h <;> simp [truthy]
  unfold EstimateDelivery.estimatePost
  simp [hlat, hlon, htr]

/-- Witness for C10 with a pharmacy row whose latitude is exactly 0. -/
theorem pharmacy_zero_coords_rejected_witness :
    ((some (0:ℚ) = none ∨ some (0:ℚ) = some 0 ∨ some (77:ℚ) = none ∨
        some (77:ℚ) = some 0) ∧
      EstimateDelivery.validateLatitude 12 = true ∧
      EstimateDelivery.validateLongitude 77 = true) ∧
    (EstimateDelivery.estimatePost true (some 0) (some 77) 12 77 =
        EstimateDelivery.EstimateResponse.errorResp 400 "PHARMACY_COORDINATES_MISSING" ∧
      EstimateDelivery.validateLatitude 0 = true ∧
      EstimateDelivery.validateLongitude 0 = true) :=
  ⟨⟨Or.inr (Or.inl rfl), by decide, by decide⟩,
    pharmacy_zero_coords_rejected (some 0) (some 77) 12 77
      (Or.inr (Or.inl rfl)) (by decide) (by decide)⟩

/-- C1 (counterexample): for the picked-up delivery `futurePickupState`,
whose `pickedUpAt` lies 100000 minutes in the future, the tracking GET
handler reports `progressPercentage = -100`, outside [0, 100] — the
`picked_up` / `on_the_way` branch has no lower clamp. -/
theorem progress_range_counterexample :
    ¬ ∃ p : ℤ, (Tracking.trackingInfo futurePickupState 0).progressPercentage = some p ∧
      0 ≤ p ∧ p ≤ 100 := by
  rw [future_pickup_progress]
  rintro ⟨p, hp, h0, h100⟩
  rw [Option.some.injEq] at hp
  omega

/-- C1 (amended): whenever `pickedUpAt` is absent or not in the future,
every numeric `progressPercentage` produced by the tracking GET handler
lies in [0, 100].  (With a future `pickedUpAt` the `picked_up` /
`on_the_way` branch can go negative, and when the pharmacy-to-destination
ETA is 0 that branch can produce a non-numeric value serialised as
`null`.) -/
theorem progress_range_amended (s : Tracking.TrackingState) (now : ℚ)
    (hpk : ∀ t : ℚ, s.pickedUpAt = some t → t ≤ now) :
    ∀ p : ℤ, (Tracking.trackingInfo s now).progressPercentage = some p →
      0 ≤ p ∧ p ≤ 100 := by
  intro p hp
  unfold Tracking.trackingInfo at hp
  by_cases h1 : (truthy s.destLat && truthy s.destLon) = true
  · rw [if_pos h1] at hp
    by_cases h2 : (truthy s.currentLat && truthy s.currentLon) = true
    · rw [if_pos h2] at hp
      dsimp only at hp
      rw [Option.some.injEq] at hp
      rw [← hp]
      exact calculateProgress_mem _ _ _ _ _ _
    · rw [if_neg h2] at hp
      by_cases h3 : s.status = "assigned" ∨ s.status = "accepted"
      · rw [if_pos h3] at hp
        dsimp only at hp
        rw [Option.some.injEq] at hp
        omega
      · rw [if_neg h3] at hp
        by_cases h4 : s.status = "picked_up" ∨ s.status = "on_the_way"
        · rw [if_pos h4] at hp
          dsimp only at hp
          have heta : 0 ≤ Tracking.calculateETA (Tracking.calculateDistance
              ((s.pharmacyLat : ℚ) : ℝ) ((s.pharmacyLon : ℚ) : ℝ)
              ((s.destLat.getD 0 : ℚ) : ℝ) ((s.destLon.getD 0 : ℚ) : ℝ)) :=
            calculateETA_nonneg (tracking_calc_nonneg _ _ _ _)
          rcases hpu : s.pickedUpAt with _ | pt
          · rw [hpu] at hp
            dsimp only at hp
            exact pickupProgress_mem le_rfl heta p hp
          · rw [hpu] at hp
            dsimp only at hp
            have ht : 0 ≤ (now - pt) / 60000 :=
              div_nonneg (by linarith [hpk pt hpu]) (by norm_num)
            exact pickupProgress_mem ht heta p hp
        · rw [if_neg h4] at hp
          by_cases h5 : s.status = "delivered"
          · rw [if_pos h5] at hp
            dsimp only at hp
            rw [Option.some.injEq] at hp
            omega
          · rw [if_neg h5] at hp
            dsimp only at hp
            rw [Option.some.injEq] at hp
            omega
  · rw [if_neg h1] at hp
    dsimp only at hp
    rw [Option.some.injEq] at hp
    omega

/-- Witness for the amended C1 at the state `idleState` (no `pickedUpAt`),
where the handler reports progress 0. -/
theorem progress_range_amended_witness :
    (Tracking.trackingInfo idleState 0).progressPercentage = some 0 ∧
    (0 ≤ (0 : ℤ) ∧ (0 : ℤ) ≤ 100) :=
  ⟨idle_progress,
    progress_range_amended idleState 0 (fun t h => by simp [idleState] at h) 0
      idle_progress⟩

/-- C2 (counterexample): `deliveredNoDest` has delivery status
`delivered`, but because its order stores no destination coordinates the
tracking GET handler reports `progressPercentage = 0`, not 100. -/
theorem delivered_tracking_counterexample :
    deliveredNoDest.status = "delivered" ∧
    (Tracking.trackingInfo deliveredNoDest 0).progressPercentage = some 0 ∧
    (Tracking.trackingInfo deliveredNoDest 0).progressPercentage ≠ some 100 := by
  refine ⟨rfl, deliveredNoDest_progress, ?_⟩
  rw [deliveredNoDest_progress]
  decide

/-- C2 (amended): for a delivery with status `delivered` whose order has
truthy destination coordinates and which has no truthy live position, the
tracking GET handler returns `progressPercentage = 100`,
`estimatedTimeRemaining = 0` and `currentDistance = 0`. -/
theorem delivered_tracking_amended (s : Tracking.TrackingState) (now : ℚ)
    (hst : s.status = "delivered")
    (hdest : (truthy s.destLat && truthy s.destLon) = true)
    (hcur : (truthy s.currentLat && truthy s.currentLon) = false) :
    (Tracking.trackingInfo s now).progressPercentage = some 100 ∧
    (Tracking.trackingInfo s now).estimatedTimeRemaining = some 0 ∧
    (Tracking.trackingInfo s now).currentDistance = some 0 := by
  rw [trackingInfo_delivered s now hdest hcur hst]
  exact ⟨rfl, rfl, rfl⟩

/-- Witness for the amended C2 at the concrete state `deliveredState`. -/
theorem delivered_tracking_amended_witness :
    (deliveredState.status = "delivered" ∧
      (truthy deliveredState.destLat && truthy deliveredState.destLon) = true ∧
      (truthy deliveredState.currentLat && truthy deliveredState.currentLon) = false) ∧
    ((Tracking.trackingInfo deliveredState 0).progressPercentage = some 100 ∧
      (Tracking.trackingInfo deliveredState 0).estimatedTimeRemaining = some 0 ∧
      (Tracking.trackingInfo deliveredState 0).currentDistance = some 0) :=
  ⟨⟨rfl, by decide, by decide⟩,
    delivered_tracking_amended deliveredState 0 rfl (by decide) (by decide)⟩

/-- C3 (counterexample): `pharmacyAtDestState` is picked up with no live
position and non-null destination coordinates, but because its pharmacy
sits at the destination the computed ETA is 0 and the division
`timeSincePickup / estimatedTimeRemaining` produces `NaN`: the handler
serialises `progressPercentage` as `null` (modelled `none`), so no number
at most 50 is returned. -/
theorem progress_cap_counterexample :
    (pharmacyAtDestState.status = "picked_up" ∧
      pharmacyAtDestState.currentLat = none ∧ pharmacyAtDestState.currentLon = none ∧
      pharmacyAtDestState.destLat ≠ none ∧ pharmacyAtDestState.destLon ≠ none) ∧
    ¬ ∃ p : ℤ, (Tracking.trackingInfo pharmacyAtDestState 0).progressPercentage = some p ∧
      p ≤ 50 := by
  refine ⟨⟨rfl, rfl, rfl, by decide, by decide⟩, ?_⟩
  rw [pharmacyAtDest_progress]
  rintro ⟨p, hp, _⟩
  exact Option.noConfusion hp

/-- C3 (amended): for a delivery with status `picked_up` or `on_the_way`,
no recorded live position and destination coordinates present on the
order, any numeric `progressPercentage` the tracking GET handler returns
is at most 50 (when the pharmacy-to-destination ETA is 0 the field can
instead be non-numeric, serialised `null`). -/
theorem progress_cap_amended (s : Tracking.TrackingState) (now : ℚ)
    (hst : s.status = "picked_up" ∨ s.status = "on_the_way")
    (hcla : s.currentLat = none) (hclo : s.currentLon = none)
    (hda : s.destLat ≠ none) (hdo : s.destLon ≠ none) :
    ∀ p : ℤ, (Tracking.trackingInfo s now).progressPercentage = some p → p ≤ 50 := by
  intro p hp
  unfold Tracking.trackingInfo at hp
  by_cases h1 : (truthy s.destLat && truthy s.destLon) = true
  · rw [if_pos h1] at hp
    have h2 : (truthy s.currentLat && truthy s.currentLon) = false := by
      rw [hcla]
      rfl
    rw [if_neg (by rw [h2]; exact Bool.false_ne_true)] at hp
    rw [if_neg (show ¬(s.status = "assigned" ∨ s.status = "accepted") from by
      rcases hst with h | h <;> rw [h] <;> decide)] at hp
    rw [if_pos hst] at hp
    dsimp only at hp
    exact pickupProgress_le_50 p hp
  · rw [if_neg h1] at hp
    dsimp only at hp
    rw [Option.some.injEq] at hp
    omega

/-- Witness for the amended C3 at the state `zeroDestState` (destination
stored as latitude 0, longitude 0), where the handler reports progress 0. -/
theorem progress_cap_amended_witness :
    (Tracking.trackingInfo zeroDestState 0).progressPercentage = some 0 ∧
    (0 : ℤ) ≤ 50 :=
  ⟨zeroDest_progress,
    progress_cap_amended zeroDestState 0 (Or.inr rfl) rfl rfl (by decide) (by decide)
      0 zeroDest_progress⟩

end Medifast
